import Mathlib

/-!
Verification development for the Autonomous-AI-Grid-Manager microgrid core.

The definitions below are a shallow embedding of `src/core/grid_simulator.py`
(`GridState`, `MicrogridDigitalTwin`) and `src/core/rl_agent.py`
(`LegacyGridController.get_action`, the under-filled-buffer guard of
`RLAgent.train_step`).  Real-number arithmetic of the source is embedded as
exact rational arithmetic (`ℚ`); the transcendental functions used by the
physics (`np.cos`, `np.sin`, `np.exp`) are supplied by an explicit oracle
structure `Transc` (with `cos_pi x` standing for `cos (π * x)` and
`sin_pi x` for `sin (π * x)`), and every call to the process-wide random
sources (`np.random.normal`, `random.uniform`, `random.randint`) is an
explicit input (`Noise`, `InitDraws`), threaded exactly where the source
draws them.  Fallible code (the `KeyError` reachable in
`_process_events` via duplicated events) returns `Option`.
-/

namespace GridSim

/-- Oracle for the transcendental functions used by the physics.
`cos_pi x` models `np.cos (np.pi * x)`, `sin_pi x` models
`np.sin (np.pi * x)`, and `exp` models `np.exp`. -/
structure Transc where
  cos_pi : ℚ → ℚ
  sin_pi : ℚ → ℚ
  exp : ℚ → ℚ

/-- The random draws consumed by one `MicrogridDigitalTwin.step` call, in the
order the source draws them: `np.random.normal(0, 0.05)` for cloud cover,
`np.random.normal(0, 1.0)` for wind speed, `np.random.normal(0, 1)` for
temperature (all in `_update_weather`), and `np.random.normal(0, 0.1)` in
`_update_load_demand`. -/
structure Noise where
  cloud : ℚ
  wind : ℚ
  temp : ℚ
  load : ℚ

/-- The random draws consumed by `_initialize_state`:
`random.randint(1, 365)`, `random.uniform(0, 0.3)`, `random.uniform(5, 15)`,
`random.uniform(20, 35)`, the `np.random.normal(0, 0.1)` drawn inside
`_update_load_demand`, and `random.uniform(0.4, 0.6)`. -/
structure InitDraws where
  day : ℕ
  cloud : ℚ
  wind : ℚ
  temp : ℚ
  loadNoise : ℚ
  soc : ℚ

/-- The `GridState` dataclass of `grid_simulator.py`. -/
structure GridState where
  solar_generation : ℚ := 0
  wind_generation : ℚ := 0
  load_demand : ℚ := 0
  battery_soc : ℚ := 1/2
  battery_capacity : ℚ := 1000
  battery_charge_rate : ℚ := 0
  battery_health : ℚ := 1
  grid_import : ℚ := 0
  grid_frequency : ℚ := 50
  grid_voltage : ℚ := 1
  stability_score : ℚ := 1
  energy_cost : ℚ := 0
  cloud_cover : ℚ := 0
  wind_speed : ℚ := 0
  temperature : ℚ := 25
  time_of_day : ℚ := 12
  day_of_year : ℕ := 1
  deriving DecidableEq, Repr

/-- The event kinds accepted by `MicrogridDigitalTwin.inject_event`. -/
inductive EventKind where
  | cloud_cover
  | wind_drop
  | peak_demand
  | battery_degradation
  deriving DecidableEq, Repr

/-- A `MicrogridDigitalTwin` instance: its `GridState`, the step counter,
the `active_events` list, the `event_timers` dict (embedded as an
insertion-ordered association list with unique keys, like a Python dict),
and the four `safety_violations` counters. -/
structure Twin where
  state : GridState
  time_step : ℕ := 0
  active_events : List EventKind := []
  event_timers : List (EventKind × ℤ) := []
  viol_frequency : ℕ := 0
  viol_voltage : ℕ := 0
  viol_soc : ℕ := 0
  viol_total : ℕ := 0
  deriving DecidableEq, Repr

/-- The 5-dimensional continuous action consumed by `step`. -/
structure Action where
  battery_charge : ℚ
  battery_discharge : ℚ
  load_shift : ℚ
  grid_import_ctl : ℚ
  curtailment : ℚ
  deriving DecidableEq, Repr

/-- Scalar `np.clip(x, lo, hi)`. -/
def clip (x lo hi : ℚ) : ℚ := min (max x lo) hi

/-- Python `x % m` on numbers (result has the sign of `m`). -/
def pymod (x m : ℚ) : ℚ := x - m * ⌊x / m⌋

/-- Twin attribute `self.dt = 0.1` (hours). -/
def dt : ℚ := 1/10

/-- Twin attribute `self.solar_capacity = 500.0` (kW). -/
def solar_capacity : ℚ := 500

/-- Twin attribute `self.wind_capacity = 300.0` (kW). -/
def wind_capacity : ℚ := 300

/-- Twin attribute `self.battery_max_charge_rate = 200.0` (kW). -/
def battery_max_charge_rate : ℚ := 200

/-- Twin attribute `self.battery_efficiency = 0.95`. -/
def battery_efficiency : ℚ := 95/100

/-- Twin attribute `self.grid_import_cost = 7.0` (INR per kWh). -/
def grid_import_cost : ℚ := 7

/-- Twin attribute `self.grid_export_price = 4.0` (INR per kWh). -/
def grid_export_price : ℚ := 4

/-- Twin attribute `self.battery_degradation_cost = 0.5`. -/
def battery_degradation_cost : ℚ := 1/2

/-- Method `_update_weather`: cloud-cover random walk with clearing tendency,
wind-speed random walk, diurnal temperature.  Uses the already-advanced
`time_of_day`, exactly as in the source (time is advanced at the top of
`step`, before `_update_weather` runs). -/
def update_weather (tr : Transc) (n : Noise) (s : GridState) : GridState :=
  let cc := clip (s.cloud_cover + n.cloud - 1/100) 0 1
  let ws := clip (s.wind_speed + n.wind) 0 25
  let daily_temp := 27 + 8 * tr.cos_pi ((s.time_of_day - 14) / 12)
  { s with cloud_cover := cc, wind_speed := ws, temperature := daily_temp + n.temp }

/-- Method `_update_solar_generation`: zero outside 06:00-18:00; otherwise
capacity x irradiance x cloud factor x seasonal factor x temperature
derating. -/
def update_solar (tr : Transc) (s : GridState) : GridState :=
  if 6 ≤ s.time_of_day ∧ s.time_of_day ≤ 18 then
    let base_irradiance := max 0 (tr.cos_pi ((s.time_of_day - 12) / 12))
    let cloud_factor := 1 - (8/10) * s.cloud_cover
    let seasonal_factor := 1 + (2/10) * tr.sin_pi (2 * (s.day_of_year : ℚ) / 365)
    let temp_factor := 1 - (4/1000) * max 0 (s.temperature - 25)
    { s with solar_generation :=
        solar_capacity * base_irradiance * cloud_factor * seasonal_factor * temp_factor }
  else
    { s with solar_generation := 0 }

/-- Method `_update_wind_generation`: piecewise wind power curve. -/
def update_wind (s : GridState) : GridState :=
  let v := s.wind_speed
  let power : ℚ :=
    if v < 3 then 0
    else if v < 12 then (v - 3) / 9
    else if v < 25 then 1
    else 0
  { s with wind_generation := wind_capacity * power }

/-- Method `_update_load_demand`: base load plus two Gaussian-shaped peaks, weekday
factor, multiplicative noise, clamped to `[0.3, 1.0]` of the 800 kW peak. -/
def update_load (tr : Transc) (loadNoise : ℚ) (s : GridState) : GridState :=
  let hour := s.time_of_day
  let morning_peak := (3/10) * tr.exp (-((hour - 8)^2) / 2)
  let evening_peak := (5/10) * tr.exp (-((hour - 20)^2) / 4)
  let base_load : ℚ := 4/10
  let day_type_factor : ℚ := if s.day_of_year % 7 = 0 ∨ s.day_of_year % 7 = 6 then 9/10 else 1
  let random_factor := 1 + loadNoise
  let load_factor := (base_load + morning_peak + evening_peak) * day_type_factor * random_factor
  { s with load_demand := 800 * clip load_factor (3/10) 1 }

/-- Lookup in the `event_timers` dict. -/
def dictGet (d : List (EventKind × ℤ)) (k : EventKind) : Option ℤ :=
  (d.find? (fun p => p.1 = k)).map (·.2)

/-- Python dict assignment `d[k] = v`: overwrite in place if present,
append otherwise. -/
def dictPut (d : List (EventKind × ℤ)) (k : EventKind) (v : ℤ) : List (EventKind × ℤ) :=
  if (d.find? (fun p => p.1 = k)).isSome then
    d.map (fun p => if p.1 = k then (k, v) else p)
  else
    d ++ [(k, v)]

/-- Python `del d[k]`: `none` models the `KeyError` raised when the key is
absent. -/
def dictDel (d : List (EventKind × ℤ)) (k : EventKind) : Option (List (EventKind × ℤ)) :=
  if (d.find? (fun p => p.1 = k)).isSome then
    some (d.filter (fun p => ¬ p.1 = k))
  else
    none

/-- First loop of `_process_events`: walk `active_events`, decrement each
present timer, and collect (in iteration order) the events whose timer has
reached zero or below. -/
def tickTimers : List EventKind → List (EventKind × ℤ) → List (EventKind × ℤ) × List EventKind
  | [], timers => (timers, [])
  | e :: rest, timers =>
    match dictGet timers e with
    | some v =>
      let timers' := dictPut timers e (v - 1)
      let (tf, expired) := tickTimers rest timers'
      if v - 1 ≤ 0 then (tf, e :: expired) else (tf, expired)
    | none => tickTimers rest timers

/-- Python `list.remove`: drop the first occurrence, `ValueError` (`none`)
when absent. -/
def listRemove (l : List EventKind) (e : EventKind) : Option (List EventKind) :=
  if e ∈ l then some (l.erase e) else none

/-- Reset conditions applied when an event expires (`cloud_cover` back to
`0.2`, `wind_speed` back to `10.0`; `peak_demand` and
`battery_degradation` do not auto-reset). -/
def expire_reset (e : EventKind) (s : GridState) : GridState :=
  match e with
  | .cloud_cover => { s with cloud_cover := 2/10 }
  | .wind_drop => { s with wind_speed := 10 }
  | _ => s

/-- Second loop of `_process_events`: remove each expired event from
`active_events` and `event_timers` and apply the reset conditions. -/
def removeExpired : List EventKind → Twin → Option Twin
  | [], t => some t
  | e :: rest, t =>
    match listRemove t.active_events e, dictDel t.event_timers e with
    | some active', some timers' =>
      removeExpired rest
        { t with state := expire_reset e t.state,
                 active_events := active', event_timers := timers' }
    | _, _ => none

/-- Method `_process_events`. -/
def process_events (t : Twin) : Option Twin :=
  let (timers', expired) := tickTimers t.active_events t.event_timers
  removeExpired expired { t with event_timers := timers' }

/-- Method `_update_grid_dynamics`: frequency and voltage as clipped first-order
functions of the power imbalance. -/
def update_grid_dynamics (power_imbalance : ℚ) (s : GridState) : GridState :=
  let frequency_deviation := -power_imbalance / 1000
  let voltage_deviation := -|power_imbalance| / 2000
  { s with
    grid_frequency := clip (50 + frequency_deviation) 49 51,
    grid_voltage := clip (1 + voltage_deviation) (9/10) (11/10) }

/-- Method `_update_stability_score`: weighted sum of frequency, voltage, battery
health and supply-demand balance sub-scores, plus the safety-violation
counters. -/
def update_stability (t : Twin) : Twin :=
  let s := t.state
  let freq_deviation := |s.grid_frequency - 50|
  let freq_score := max 0 (1 - freq_deviation / 1)
  let vf := if freq_deviation > 1/2 then t.viol_frequency + 1 else t.viol_frequency
  let tot1 := if freq_deviation > 1/2 then t.viol_total + 1 else t.viol_total
  let volt_deviation := |s.grid_voltage - 1|
  let volt_score := max 0 (1 - volt_deviation / (1/10))
  let vv := if volt_deviation > 1/20 then t.viol_voltage + 1 else t.viol_voltage
  let tot2 := if volt_deviation > 1/20 then tot1 + 1 else tot1
  let battery_score := s.battery_health
  let vs := if s.battery_soc < 1/10 ∨ s.battery_soc > 95/100 then t.viol_soc + 1 else t.viol_soc
  let tot3 := if s.battery_soc < 1/10 ∨ s.battery_soc > 95/100 then tot2 + 1 else tot2
  let total_generation :=
    s.solar_generation + s.wind_generation + |s.battery_charge_rate| + max 0 s.grid_import
  let balance_ratio := min (total_generation / max s.load_demand 1) 1
  { t with
    state := { s with stability_score :=
      (3/10) * freq_score + (3/10) * volt_score + (2/10) * battery_score + (2/10) * balance_ratio },
    viol_frequency := vf, viol_voltage := vv, viol_soc := vs, viol_total := tot3 }

/-- Method `_calculate_energy_cost`. -/
def calc_energy_cost (s : GridState) : GridState :=
  let import_cost := max 0 s.grid_import * grid_import_cost * dt
  let export_revenue := max 0 (-s.grid_import) * grid_export_price * dt
  let battery_cost := |s.battery_charge_rate| * battery_degradation_cost * dt
  { s with energy_cost := import_cost - export_revenue + battery_cost }

/-- Method `_calculate_reward`, with the `reward_weights` constants of `__init__`. -/
def calc_reward (s : GridState) : ℚ :=
  let stability_reward := 100 * s.stability_score
  let cost_penalty := -s.energy_cost
  let renewable_generation := s.solar_generation + s.wind_generation
  let renewable_ratio := min (renewable_generation / max s.load_demand 1) 1
  let renewable_bonus := 20 * renewable_ratio
  let battery_bonus := 10 * s.battery_health
  let soc_penalty : ℚ := if s.battery_soc < 15/100 ∨ s.battery_soc > 95/100 then -50 else 0
  let instability_penalty : ℚ := if s.stability_score < 7/10 then -100 else 0
  stability_reward + cost_penalty + renewable_bonus + battery_bonus + soc_penalty
    + instability_penalty

/-- Method `_check_termination`. -/
def check_termination (t : Twin) : Bool :=
  decide (t.state.stability_score < 1/2) ||
  decide (t.state.battery_health < 1/2) ||
  decide (|t.state.grid_frequency - 50| > 2) ||
  decide (t.time_step > 1000)

/-- Lines 158-166 of `step`: advance the step counter and `time_of_day`,
then run the weather, solar, wind and load updates (none of which read the
action). -/
def preEvents (tr : Transc) (n : Noise) (t : Twin) : Twin :=
  let s := { t.state with time_of_day := pymod (t.state.time_of_day + dt) 24 }
  let s := update_weather tr n s
  let s := update_solar tr s
  let s := update_wind s
  let s := update_load tr n.load s
  { t with state := s, time_step := t.time_step + 1 }

/-- Line 175 of `step`: renewable after curtailment. -/
def curtailed_renewable (a : Action) (s : GridState) : ℚ :=
  (s.solar_generation + s.wind_generation) * (1 - clip a.curtailment 0 1 * (1/2))

/-- Line 181 of `step`: load after load shifting. -/
def shifted_load (a : Action) (s : GridState) : ℚ :=
  s.load_demand * (1 - clip a.load_shift 0 1 * (2/10))

/-- Lines 184-204 of `step`: battery dispatch (negative = charging,
positive = discharging). -/
def battery_power (a : Action) (s : GridState) : ℚ :=
  let battery_charge_cmd := clip a.battery_charge 0 1
  let battery_discharge_cmd := clip a.battery_discharge 0 1
  if battery_charge_cmd > 1/2 ∧ s.battery_soc < 95/100 then
    -(min (min (max 0 (curtailed_renewable a s - shifted_load a s))
            (battery_charge_cmd * battery_max_charge_rate))
        ((95/100 - s.battery_soc) * s.battery_capacity / dt))
  else if battery_discharge_cmd > 1/2 ∧ s.battery_soc > 1/10 then
    min (min (max 0 (shifted_load a s - curtailed_renewable a s))
          (battery_discharge_cmd * battery_max_charge_rate))
      ((s.battery_soc - 1/10) * s.battery_capacity / dt)
  else 0

/-- Lines 207-211 of `step`: energy moved in one step, with the asymmetric
efficiency factor (charging energy scaled down, discharging energy scaled
up). -/
def energy_change (bp : ℚ) : ℚ :=
  if bp < 0 then bp * dt * battery_efficiency else bp * dt / battery_efficiency

/-- Line 223 of `step`: power balance seen by the grid. -/
def grid_balance (a : Action) (s : GridState) : ℚ :=
  shifted_load a s - curtailed_renewable a s - battery_power a s

/-- Lines 171-238 of `step`: curtailment, load shifting, battery dispatch,
SOC/health update, grid import, grid dynamics, stability score and energy
cost.  Runs after `_process_events`. -/
def postEvents (a : Action) (t : Twin) : Twin :=
  let s := t.state
  let bp := battery_power a s
  let s1 := { s with
    battery_soc := clip (s.battery_soc - energy_change bp / s.battery_capacity) 0 1,
    battery_charge_rate := bp,
    battery_health := s.battery_health * (9999/10000) }
  let s2 := { s1 with
    grid_import :=
      if clip a.grid_import_ctl 0 1 > 1/2 then grid_balance a s
      else max 0 (grid_balance a s) }
  let s3 := update_grid_dynamics (grid_balance a s) s2
  let t1 := update_stability { t with state := s3 }
  { t1 with state := calc_energy_cost t1.state }

/-- The state-transforming part of `MicrogridDigitalTwin.step`:
`none` models the `KeyError` reachable inside `_process_events`. -/
def stepCore (tr : Transc) (n : Noise) (a : Action) (t : Twin) : Option Twin :=
  (process_events (preEvents tr n t)).map (postEvents a)

/-- Method `MicrogridDigitalTwin.step`, returning the updated twin (whose state
the returned state vector is a projection of), the reward and the
termination flag. -/
def step (tr : Transc) (n : Noise) (a : Action) (t : Twin) :
    Option (Twin × ℚ × Bool) :=
  (stepCore tr n a t).map (fun t' => (t', calc_reward t'.state, check_termination t'))

/-- Method `MicrogridDigitalTwin.inject_event`. -/
def inject_event (e : EventKind) (t : Twin) : Twin :=
  match e with
  | .cloud_cover =>
    { t with
      state := { t.state with cloud_cover := 9/10 },
      active_events := t.active_events ++ [.cloud_cover],
      event_timers := dictPut t.event_timers .cloud_cover 10 }
  | .wind_drop =>
    { t with
      state := { t.state with wind_speed := 1 },
      active_events := t.active_events ++ [.wind_drop],
      event_timers := dictPut t.event_timers .wind_drop 15 }
  | .peak_demand =>
    { t with
      state := { t.state with load_demand := t.state.load_demand * (3/2) },
      active_events := t.active_events ++ [.peak_demand],
      event_timers := dictPut t.event_timers .peak_demand 20 }
  | .battery_degradation =>
    { t with
      state := { t.state with battery_health := t.state.battery_health * (8/10) },
      active_events := t.active_events ++ [.battery_degradation],
      event_timers := dictPut t.event_timers .battery_degradation 5 }

/-- Method `MicrogridDigitalTwin.get_state_vector`: 10 normalized current-state
dimensions, plus 3 forecast dimensions that fall back to the current
values unless all three forecasts are supplied. -/
def get_state_vector (t : Twin) (forecast_solar forecast_wind forecast_load : Option ℚ) :
    List ℚ :=
  let s := t.state
  let current_state : List ℚ :=
    [s.solar_generation / solar_capacity,
     s.wind_generation / wind_capacity,
     s.load_demand / 1000,
     s.battery_soc,
     s.battery_health,
     s.grid_import / 1000,
     (s.grid_frequency - 50) / 2,
     s.grid_voltage - 1,
     s.cloud_cover,
     s.wind_speed / 25]
  let forecast_state : List ℚ :=
    match forecast_solar, forecast_wind, forecast_load with
    | some fs, some fw, some fl =>
      [fs / solar_capacity, fw / wind_capacity, fl / 1000]
    | _, _, _ =>
      [s.solar_generation / solar_capacity,
       s.wind_generation / wind_capacity,
       s.load_demand / 1000]
  current_state ++ forecast_state

/-- Method `_initialize_state` acting on a twin holding a default `GridState`
(mirrors `__init__` after the attribute assignments, and `reset`). -/
def init_twin_state (tr : Transc) (d : InitDraws) (t : Twin) : Twin :=
  let s := { t.state with
    time_of_day := 12, day_of_year := d.day,
    cloud_cover := d.cloud, wind_speed := d.wind, temperature := d.temp }
  let s := update_solar tr s
  let s := update_wind s
  let s := update_load tr d.loadNoise s
  let s := { s with battery_soc := d.soc, battery_health := 1,
                    grid_frequency := 50, grid_voltage := 1 }
  let t := update_stability { t with state := s }
  { t with state := calc_energy_cost t.state }

/-- Constructor `MicrogridDigitalTwin.__init__` (state part): a fresh default
`GridState` followed by `_initialize_state`. -/
def init_twin (tr : Transc) (d : InitDraws) : Twin :=
  init_twin_state tr d { state := {} }

/-- Method `MicrogridDigitalTwin.reset`: zero the step counter, clear the event
bookkeeping, re-initialize the state (the safety-violation counters are
not reset by the source). -/
def reset (tr : Transc) (d : InitDraws) (t : Twin) : Twin :=
  init_twin_state tr d { t with time_step := 0, active_events := [], event_timers := [] }

/-! Rule-based baseline controller (`LegacyGridController.get_action` of
`rl_agent.py`) and the buffer guard of `RLAgent.train_step`. -/

/-- Method `LegacyGridController.get_action`: the action vector starts at zeros and
the five rules fire in sequence, each writing its own component. -/
def get_action (s : GridState) : Action :=
  let a : Action := ⟨0, 0, 0, 0, 0⟩
  let renewable := s.solar_generation + s.wind_generation
  let load := s.load_demand
  let surplus := renewable - load
  let a := if surplus > 0 ∧ s.battery_soc < 8/10 then
    { a with battery_charge := min (surplus / 200) 1 } else a
  let a := if surplus < 0 ∧ s.battery_soc > 2/10 then
    { a with battery_discharge := min (|surplus| / 200) 1 } else a
  let a := if s.stability_score < 85/100 then { a with load_shift := 1/2 } else a
  let a := if surplus < -100 then { a with grid_import_ctl := 8/10 }
    else if surplus < 0 then { a with grid_import_ctl := 3/10 } else a
  let a := if s.battery_soc > 95/100 ∧ surplus > 200 then { a with curtailment := 3/10 } else a
  a

/-- The closed-form action claimed by the specification for the baseline
controller (written from the spec text, to be compared with `get_action`,
which is translated from the source). -/
def spec_baseline_action (s : GridState) : Action :=
  let surplus := s.solar_generation + s.wind_generation - s.load_demand
  { battery_charge := if surplus > 0 ∧ s.battery_soc < 8/10 then min (surplus / 200) 1 else 0,
    battery_discharge :=
      if surplus < 0 ∧ s.battery_soc > 2/10 then min (|surplus| / 200) 1 else 0,
    load_shift := if s.stability_score < 85/100 then 1/2 else 0,
    grid_import_ctl :=
      if surplus < -100 then 8/10 else if surplus < 0 then 3/10 else 0,
    curtailment := if s.battery_soc > 95/100 ∧ surplus > 200 then 3/10 else 0 }

/-- The metrics dict returned by `RLAgent.train_step`. -/
structure Metrics where
  policy_loss : ℚ
  value_loss : ℚ
  entropy : ℚ
  deriving DecidableEq, Repr

/-- Class `RLAgent`: policy and value networks, their optimizers, and the
experience buffer.  The torch-backed network and optimizer payloads are
opaque type parameters; the buffer entries are transitions. -/
structure RLAgent (Net Opt Exp : Type) where
  policy : Net
  value : Net
  policy_optimizer : Opt
  value_optimizer : Opt
  buffer : List Exp

/-- Method `RLAgent.train_step`: the under-filled-buffer guard (lines 168-169 of
`rl_agent.py`) is translated from the source; the torch training body that
runs when the buffer holds at least `batch_size` transitions is abstracted
as the parameter `body`. -/
def train_step {Net Opt Exp : Type} (body : RLAgent Net Opt Exp → RLAgent Net Opt Exp × Metrics)
    (batch_size : ℕ) (ag : RLAgent Net Opt Exp) : RLAgent Net Opt Exp × Metrics :=
  if ag.buffer.length < batch_size then (ag, ⟨0, 0, 0⟩) else body ag

/-- An agent with an empty buffer (trivial network and optimizer payloads),
used to witness the under-filled-buffer guard. -/
def agent0 : RLAgent Unit Unit Unit := ⟨(), (), (), (), []⟩

/-! Concrete inputs shared by several witnesses and counterexamples. -/

/-- Transcendental oracle that returns 0 everywhere (satisfies the
`|cos| ≤ 1`, `|sin| ≤ 1` bounds of the real functions). -/
def trig0 : Transc := ⟨fun _ => 0, fun _ => 0, fun _ => 0⟩

/-- All random draws equal to zero for one step. -/
def noise0 : Noise := ⟨0, 0, 0, 0⟩

/-- The all-zeros action. -/
def act0 : Action := ⟨0, 0, 0, 0, 0⟩

/-- Concrete construction draws: day 1, clear sky, 10 m/s wind, 25 C,
no load noise, SOC one half. -/
def d0 : InitDraws := ⟨1, 0, 10, 25, 0, 1/2⟩

/-- A concretely constructed twin. -/
def twin0 : Twin := init_twin trig0 d0

/-! Support for claim C2: the closed form of the all-zero run from
`twin0`. -/

/-- Closed form of the grid state reached after `k ≥ 1` zero-action,
zero-noise steps from `twin0`: only `battery_health` (parameter `h`),
the derived `stability_score`, and `time_of_day` (parameter `τ`) vary. -/
def c2State (h τ : ℚ) : GridState where
  solar_generation := 0
  wind_generation := 700/3
  load_demand := 320
  battery_soc := 1/2
  battery_capacity := 1000
  battery_charge_rate := 0
  battery_health := h
  grid_import := 260/3
  grid_frequency := 7487/150
  grid_voltage := 287/300
  stability_score := 161/250 + h/5
  energy_cost := 182/3
  cloud_cover := 0
  wind_speed := 10
  temperature := 27
  time_of_day := τ
  day_of_year := 1

/-- The twin reached after `k ≥ 1` zero steps from `twin0`. -/
def c2Twin (k : ℕ) (h τ : ℚ) : Twin where
  state := c2State h τ
  time_step := k

/-- Value of `time_of_day` along the zero run. -/
def c2tod : ℕ → ℚ
  | 0 => 12
  | k + 1 => pymod (c2tod k + 1/10) 24

/-- Result of the `(k+1)`-st `step` call of the all-zero run from
`twin0`. -/
def c2_res : ℕ → Option (Twin × ℚ × Bool)
  | 0 => step trig0 noise0 act0 twin0
  | k + 1 => (c2_res k).bind fun r => step trig0 noise0 act0 r.1

/-- Negation of claim C2 at the all-zero run: none of the first 1000
`step` calls returns `done = true`, and the 1001st call does. -/
def c2_cex_prop : Prop :=
  (∀ k : ℕ, k ≤ 999 → (c2_res k).map (fun r => r.2.2) = some false) ∧
  (c2_res 1000).map (fun r => r.2.2) = some true

/-- Conclusion of the amended claim C2: each `step` call advances
`time_step` by one, and any call made with `time_step` already at 1000 or
more (the 1001st call or later) returns `done = true`. -/
def horizon_done (t : Twin) (o : Option (Twin × ℚ × Bool)) : Prop :=
  ∀ r ∈ o, r.1.time_step = t.time_step + 1 ∧ (1000 ≤ t.time_step → r.2.2 = true)

/-! Support for claim C1. -/

/-- The bounds satisfied by the real `cos` and `sin` that the physics
bounds rely on. -/
def BoundedTransc (tr : Transc) : Prop :=
  (∀ x, |tr.cos_pi x| ≤ 1) ∧ (∀ x, |tr.sin_pi x| ≤ 1)

/-- The four state bounds asserted by claim C1, as a predicate on a `step`
result. -/
def safe_bounds (o : Option (Twin × ℚ × Bool)) : Prop :=
  ∀ r ∈ o,
    0 ≤ r.1.state.battery_soc ∧ r.1.state.battery_soc ≤ 1 ∧
    0 ≤ r.1.state.stability_score ∧ r.1.state.stability_score ≤ 1 ∧
    49 ≤ r.1.state.grid_frequency ∧ r.1.state.grid_frequency ≤ 51 ∧
    9/10 ≤ r.1.state.grid_voltage ∧ r.1.state.grid_voltage ≤ 11/10

/-- Oracle for the C1 counterexample: constant 1 for `cos`, constant 0 for
`sin` and `exp` (all within the bounds of the real functions). -/
def trig1 : Transc := ⟨fun _ => 1, fun _ => 0, fun _ => 0⟩

/-- Construction draws for the C1 counterexample twin: day 365, clear sky,
5 m/s wind, 25 C, no load noise, SOC one half. -/
def d1 : InitDraws := ⟨365, 0, 5, 25, 0, 1/2⟩

/-- One step of weather noise with an extreme (but Gaussian-possible)
temperature draw. -/
def noiseBig : Noise := ⟨0, -5, 100000, 0⟩

/-- Full-curtailment action for the C1 counterexample. -/
def actC1 : Action := ⟨0, 0, 0, 0, 1⟩

/-! Support for claims C3 and C10. -/

/-- The twin state inside `step` right after `_process_events`, i.e. the
state the battery-dispatch section reads (`none` models the `KeyError`
reachable in `_process_events`). -/
def midTwin (tr : Transc) (n : Noise) (t : Twin) : Option Twin :=
  process_events (preEvents tr n t)

/-- The battery-dispatch characterization asserted by claim C3, phrased
with the claim's own formulas, as a predicate relating the mid-step state
to the `step` result. -/
def c3_dispatch_prop (a : Action) (t1 : Twin) (o : Option (Twin × ℚ × Bool)) : Prop :=
  ∀ r ∈ o,
    let s := t1.state
    let bcc := clip a.battery_charge 0 1
    let bdc := clip a.battery_discharge 0 1
    let curtailed := (s.solar_generation + s.wind_generation) * (1 - clip a.curtailment 0 1 / 2)
    let shifted := s.load_demand * (1 - clip a.load_shift 0 1 / 5)
    let bp : ℚ :=
      if bcc > 1/2 ∧ s.battery_soc < 95/100 then
        -(min (min (max 0 (curtailed - shifted)) (bcc * 200))
            ((95/100 - s.battery_soc) * s.battery_capacity * 10))
      else if bdc > 1/2 ∧ s.battery_soc > 1/10 then
        min (min (max 0 (shifted - curtailed)) (bdc * 200))
          ((s.battery_soc - 1/10) * s.battery_capacity * 10)
      else 0
    r.1.state.battery_charge_rate = bp ∧
    r.1.state.battery_soc =
      clip (s.battery_soc -
        (if bp < 0 then bp * (1/10) * (95/100) else bp * (1/10) / (95/100))
          / s.battery_capacity) 0 1 ∧
    (s.battery_soc = 1/2 → s.battery_capacity = 1000 → a = ⟨1, 0, 0, 0, 0⟩ →
      shifted < curtailed →
      s.battery_soc < r.1.state.battery_soc ∧ r.1.state.battery_charge_rate < 0)

/-- Claim C3 as one predicate over the inputs of a `step` call. -/
def c3_claim_prop (tr : Transc) (n : Noise) (a : Action) (t : Twin) : Prop :=
  ∀ t1 ∈ midTwin tr n t, c3_dispatch_prop a t1 (step tr n a t)

/-- Conclusion of claim C10: after any successful `step`, the frequency
sits within 1 Hz of nominal, so the `done` flag reduces to the
stability, battery-health and horizon exits only. -/
def freq_exit_dead (o : Option (Twin × ℚ × Bool)) : Prop :=
  ∀ r ∈ o,
    |r.1.state.grid_frequency - 50| ≤ 1 ∧
    r.2.2 = (decide (r.1.state.stability_score < 1/2) ||
             decide (r.1.state.battery_health < 1/2) ||
             decide (r.1.time_step > 1000))

/-! Support for claim C4. -/

/-- Run a list of `step` calls (noise and action per call). -/
def runSteps (tr : Transc) : List (Noise × Action) → Twin → Option Twin
  | [], t => some t
  | (n, a) :: rest, t => (step tr n a t).bind fun r => runSteps tr rest r.1

/-- Claim C4, cloud-cover part: injecting `cloud_cover` into an event-free
twin sets `cloud_cover = 0.9` at once and arms a 10-step timer; any 10-step
run (arbitrary noises and actions, no further injections) keeps the event
armed through step 9 and ends step 10 with `cloud_cover` back at the `0.2`
baseline and the event cleared. -/
def c4_cloud_prop (tr : Transc) (t : Twin) : Prop :=
  (inject_event .cloud_cover t).state.cloud_cover = 9/10 ∧
  (inject_event .cloud_cover t).event_timers = [(.cloud_cover, 10)] ∧
  (∀ l t', runSteps tr l (inject_event .cloud_cover t) = some t' →
    ((l.length < 10 → t'.active_events = [.cloud_cover] ∧
        t'.event_timers = [(.cloud_cover, 10 - (l.length : ℤ))]) ∧
     (l.length = 10 → t'.state.cloud_cover = 2/10 ∧
        t'.active_events = [] ∧ t'.event_timers = [])))

/-- Claim C4, wind-drop part: immediate `wind_speed = 1.0`, 15-step timer,
reversion to the `10.0` baseline at step 15. -/
def c4_wind_prop (tr : Transc) (t : Twin) : Prop :=
  (inject_event .wind_drop t).state.wind_speed = 1 ∧
  (inject_event .wind_drop t).event_timers = [(.wind_drop, 15)] ∧
  (∀ l t', runSteps tr l (inject_event .wind_drop t) = some t' →
    ((l.length < 15 → t'.active_events = [.wind_drop] ∧
        t'.event_timers = [(.wind_drop, 15 - (l.length : ℤ))]) ∧
     (l.length = 15 → t'.state.wind_speed = 10 ∧
        t'.active_events = [] ∧ t'.event_timers = [])))

/-- Claim C4, peak-demand part: immediate `load_demand` times 1.5, 20-step
timer, and expiry clears the bookkeeping without touching the state. -/
def c4_peak_prop (t : Twin) : Prop :=
  (inject_event .peak_demand t).state.load_demand = t.state.load_demand * (3/2) ∧
  (inject_event .peak_demand t).event_timers = [(.peak_demand, 20)] ∧
  (∀ u : Twin, u.active_events = [.peak_demand] → u.event_timers = [(.peak_demand, 1)] →
    process_events u = some { u with active_events := [], event_timers := [] })

/-- Claim C4, battery-degradation part: immediate `battery_health` times
0.8, 5-step timer, and expiry clears the bookkeeping without touching the
state. -/
def c4_deg_prop (t : Twin) : Prop :=
  (inject_event .battery_degradation t).state.battery_health
      = t.state.battery_health * (8/10) ∧
  (inject_event .battery_degradation t).event_timers = [(.battery_degradation, 5)] ∧
  (∀ u : Twin, u.active_events = [.battery_degradation] →
    u.event_timers = [(.battery_degradation, 1)] →
    process_events u = some { u with active_events := [], event_timers := [] })

/-! Support for claim C5. -/

/-- One externally visible operation on a twin: a `step` call (with its
random draws) or an `inject_event` call. -/
inductive GridOp where
  | doStep (n : Noise) (a : Action)
  | doInject (e : EventKind)

/-- Apply one operation. -/
def apply_op (tr : Transc) (op : GridOp) (t : Twin) : Option Twin :=
  match op with
  | .doStep n a => (step tr n a t).map (fun r => r.1)
  | .doInject e => some (inject_event e t)

/-- Run a sequence of operations. -/
def run_ops (tr : Transc) : List GridOp → Twin → Option Twin
  | [], t => some t
  | op :: rest, t => (apply_op tr op t).bind (run_ops tr rest)

/-- Conclusion of claim C5: battery health never rises above its starting
value, and stays nonnegative. -/
def health_mono (h0 : ℚ) (o : Option Twin) : Prop :=
  ∀ t' ∈ o, t'.state.battery_health ≤ h0 ∧ 0 ≤ t'.state.battery_health

/-! Support for claim C6. -/

/-- Claim C6 as a predicate: the observation vector always has 13 entries;
with any forecast argument omitted the last three entries equal the first
three; with all three supplied they carry the normalized forecasts. -/
def c6_vector_prop (t : Twin) (fs fw fl : Option ℚ) : Prop :=
  let v := get_state_vector t fs fw fl
  v.length = 13 ∧
  ((fs = none ∨ fw = none ∨ fl = none) →
    v.get? 10 = v.get? 0 ∧ v.get? 11 = v.get? 1 ∧ v.get? 12 = v.get? 2) ∧
  (∀ a b c, fs = some a → fw = some b → fl = some c →
    v.get? 10 = some (a / solar_capacity) ∧
    v.get? 11 = some (b / wind_capacity) ∧
    v.get? 12 = some (c / 1000))

/-! Support for claim C9: the process-wide random source as explicit
global state. -/

/-- Constructor `MicrogridDigitalTwin.__init__` with a seed: `np.random.seed` /
`random.seed` replace the global generator state `g` with `seedFn seed`,
after which `_initialize_state` consumes its draws from the global
stream. -/
def mk_twin_seeded {R : Type} (tr : Transc) (seedFn : ℤ → R)
    (drawInit : R → InitDraws × R) (seed : ℤ) (_g : R) : Twin × R :=
  let g1 := seedFn seed
  let p := drawInit g1
  (init_twin tr p.1, p.2)

/-- Run an action sequence, drawing each step's noise from the global
stream; a raising step truncates the trajectory. -/
def run_traj {R : Type} (tr : Transc) (drawNoise : R → Noise × R) :
    List Action → Twin → R → List GridState × R
  | [], _, g => ([], g)
  | a :: rest, t, g =>
    let p := drawNoise g
    match step tr p.1 a t with
    | none => ([], p.2)
    | some r =>
      let q := run_traj tr drawNoise rest r.1 p.2
      (r.1.state :: q.1, q.2)

/-- Concrete global stream for the C9 counterexample: seeding resets the
counter, construction draws fixed values, and the k-th step draw has cloud
noise `k/10`. -/
def seedC : ℤ → ℕ := fun _ => 0

/-- Construction draws of the concrete stream. -/
def drawInitC : ℕ → InitDraws × ℕ := fun g => (⟨1, 2/10, 10, 25, 0, 1/2⟩, g + 1)

/-- Step draws of the concrete stream. -/
def drawNoiseC : ℕ → Noise × ℕ := fun g => (⟨(g : ℚ) / 10, 0, 0, 0⟩, g + 1)

/-- First twin of the interleaved C9 schedule (constructed with seed 42
from global state 0). -/
def c9_twinA : Twin := (mk_twin_seeded trig0 seedC drawInitC 42 0).1

/-- Global stream state after constructing the first twin. -/
def c9_g1 : ℕ := (mk_twin_seeded trig0 seedC drawInitC 42 0).2

/-- Second twin, constructed with the same seed 42 right after the first
(its seeding resets the shared stream). -/
def c9_twinB : Twin := (mk_twin_seeded trig0 seedC drawInitC 42 c9_g1).1

/-- Global stream state after constructing both twins. -/
def c9_g2 : ℕ := (mk_twin_seeded trig0 seedC drawInitC 42 c9_g1).2

/-- Noise consumed by the first twin's first step. -/
def c9_noiseA : Noise := (drawNoiseC c9_g2).1

/-- Noise consumed by the second twin's first step, drawn from the shared
stream right after the first twin's step. -/
def c9_noiseB : Noise := (drawNoiseC (drawNoiseC c9_g2).2).1

/-! Helper lemmas. -/

theorem clip_mem (x lo hi : ℚ) (h : lo ≤ hi) : lo ≤ clip x lo hi ∧ clip x lo hi ≤ hi :=
  ⟨le_min (le_max_right x lo) h, min_le_right _ _⟩

theorem clip_eq_of_mem {x lo hi : ℚ} (h1 : lo ≤ x) (h2 : x ≤ hi) : clip x lo hi = x := by
  rw [clip, max_eq_left h1, min_eq_left h2]

theorem update_solar_frame (tr : Transc) (s : GridState) :
    update_solar tr s = { s with solar_generation := (update_solar tr s).solar_generation } := by
  unfold update_solar
  split <;> rfl

theorem update_weather_health (tr : Transc) (n : Noise) (s : GridState) :
    (update_weather tr n s).battery_health = s.battery_health := rfl

theorem update_solar_health (tr : Transc) (s : GridState) :
    (update_solar tr s).battery_health = s.battery_health := by
  rw [update_solar_frame]

theorem update_wind_health (s : GridState) :
    (update_wind s).battery_health = s.battery_health := rfl

theorem update_load_health (tr : Transc) (ln : ℚ) (s : GridState) :
    (update_load tr ln s).battery_health = s.battery_health := rfl

theorem preEvents_active (tr : Transc) (n : Noise) (t : Twin) :
    (preEvents tr n t).active_events = t.active_events := rfl

theorem preEvents_timers (tr : Transc) (n : Noise) (t : Twin) :
    (preEvents tr n t).event_timers = t.event_timers := rfl

theorem preEvents_time_step (tr : Transc) (n : Noise) (t : Twin) :
    (preEvents tr n t).time_step = t.time_step + 1 := rfl

theorem preEvents_health (tr : Transc) (n : Noise) (t : Twin) :
    (preEvents tr n t).state.battery_health = t.state.battery_health := by
  simp only [preEvents]
  rw [update_load_health, update_wind_health, update_solar_health, update_weather_health]

theorem expire_reset_health (e : EventKind) (s : GridState) :
    (expire_reset e s).battery_health = s.battery_health := by
  cases e <;> rfl

theorem expire_reset_solar (e : EventKind) (s : GridState) :
    (expire_reset e s).solar_generation = s.solar_generation := by
  cases e <;> rfl

theorem expire_reset_wind_gen (e : EventKind) (s : GridState) :
    (expire_reset e s).wind_generation = s.wind_generation := by
  cases e <;> rfl

theorem removeExpired_core (l : List EventKind) (t t' : Twin)
    (h : removeExpired l t = some t') :
    t'.state.battery_health = t.state.battery_health ∧
    t'.state.solar_generation = t.state.solar_generation ∧
    t'.state.wind_generation = t.state.wind_generation ∧
    t'.time_step = t.time_step := by
  induction l generalizing t with
  | nil =>
    simp only [removeExpired, Option.some.injEq] at h
    subst h
    exact ⟨rfl, rfl, rfl, rfl⟩
  | cons e rest ih =>
    simp only [removeExpired] at h
    rcases hr : listRemove t.active_events e with _ | active' <;> rw [hr] at h
    · exact absurd h (by simp)
    rcases hd : dictDel t.event_timers e with _ | timers' <;> rw [hd] at h
    · exact absurd h (by simp)
    have := ih _ h
    simpa [expire_reset_health, expire_reset_solar, expire_reset_wind_gen] using this

theorem process_events_core (t t' : Twin) (h : process_events t = some t') :
    t'.state.battery_health = t.state.battery_health ∧
    t'.state.solar_generation = t.state.solar_generation ∧
    t'.state.wind_generation = t.state.wind_generation ∧
    t'.time_step = t.time_step := by
  unfold process_events at h
  rcases htk : tickTimers t.active_events t.event_timers with ⟨timers', expired⟩
  rw [htk] at h
  simpa using removeExpired_core _ _ _ h

theorem process_events_nil (t : Twin) (h : t.active_events = []) :
    process_events t = some t := by
  unfold process_events
  have htick : tickTimers t.active_events t.event_timers = (t.event_timers, []) := by
    rw [h, tickTimers]
  rw [htick]
  rfl

theorem postEvents_active (a : Action) (t : Twin) :
    (postEvents a t).active_events = t.active_events := rfl

theorem postEvents_timers (a : Action) (t : Twin) :
    (postEvents a t).event_timers = t.event_timers := rfl

theorem postEvents_time_step (a : Action) (t : Twin) :
    (postEvents a t).time_step = t.time_step := rfl

theorem postEvents_health (a : Action) (t : Twin) :
    (postEvents a t).state.battery_health = t.state.battery_health * (9999/10000) := rfl

theorem postEvents_cloud (a : Action) (t : Twin) :
    (postEvents a t).state.cloud_cover = t.state.cloud_cover := rfl

theorem postEvents_wind_speed (a : Action) (t : Twin) :
    (postEvents a t).state.wind_speed = t.state.wind_speed := rfl

theorem step_eq (tr : Transc) (n : Noise) (a : Action) (t : Twin) :
    step tr n a t = (midTwin tr n t).map
      (fun t1 => (postEvents a t1, calc_reward (postEvents a t1).state,
        check_termination (postEvents a t1))) := by
  simp [step, stepCore, midTwin, Option.map_map, Function.comp_def]

/-! The all-zero run used to refute claim C2. -/

set_option maxHeartbeats 800000 in
theorem c2_pre (k : ℕ) (h τ : ℚ) :
    preEvents trig0 noise0 (c2Twin k h τ) = c2Twin (k+1) h (pymod (τ + 1/10) 24) := by
  norm_num [preEvents, update_weather, update_solar, update_wind, update_load,
    clip, dt, wind_capacity, trig0, noise0, c2Twin, c2State, abs, max_def, min_def]

set_option maxHeartbeats 800000 in
theorem c2_post (m : ℕ) (h τ : ℚ) :
    postEvents act0 (c2Twin m h τ) = c2Twin m (h * (9999/10000)) τ := by
  simp only [postEvents, battery_power, curtailed_renewable, shifted_load, energy_change,
    grid_balance, update_grid_dynamics, update_stability, calc_energy_cost,
    clip, dt, battery_max_charge_rate, battery_efficiency, grid_import_cost,
    grid_export_price, battery_degradation_cost, act0, c2Twin, c2State,
    Twin.mk.injEq, GridState.mk.injEq]
  norm_num [abs, max_def, min_def]
  ring

theorem stepCore_c2 (k : ℕ) (h τ : ℚ) :
    stepCore trig0 noise0 act0 (c2Twin k h τ)
      = some (c2Twin (k+1) (h * (9999/10000)) (pymod (τ + 1/10) 24)) := by
  unfold stepCore
  rw [c2_pre, process_events_nil _ rfl, Option.map_some', c2_post]

set_option maxHeartbeats 1000000 in
theorem stepCore_twin0 :
    stepCore trig0 noise0 act0 twin0 = some (c2Twin 1 (9999/10000) (121/10)) := by
  norm_num [stepCore, preEvents, postEvents, process_events, tickTimers, removeExpired,
    battery_power, curtailed_renewable, shifted_load, energy_change, grid_balance,
    update_weather, update_solar, update_wind, update_load, update_grid_dynamics,
    update_stability, calc_energy_cost, init_twin, init_twin_state, clip, pymod, dt,
    solar_capacity, wind_capacity, battery_max_charge_rate, battery_efficiency,
    grid_import_cost, grid_export_price, battery_degradation_cost,
    trig0, noise0, act0, d0, twin0, c2Twin, c2State, dictGet, dictPut, dictDel,
    listRemove, abs, max_def, min_def]

theorem check_c2_false (k : ℕ) (h τ : ℚ) (hk : k ≤ 1000) (_h0 : 0 ≤ h) (hh : 1/2 ≤ h) :
    check_termination (c2Twin k h τ) = false := by
  simp only [check_termination, c2Twin, c2State, Bool.or_eq_false_iff,
    decide_eq_false_iff_not, not_lt]
  refine ⟨⟨⟨by linarith, by linarith⟩, ?_⟩, by omega⟩
  rw [abs_of_nonpos (by norm_num)]
  norm_num

theorem check_c2_true_at_1001 (h τ : ℚ) :
    check_termination (c2Twin 1001 h τ) = true := by
  simp [check_termination, c2Twin]

theorem c2_pow_ge (n : ℕ) (hn : n ≤ 1000) : (1/2 : ℚ) ≤ (9999/10000)^n := by
  have h1 : (1 : ℚ) + (n : ℚ) * (-1/10000) ≤ (1 + (-1/10000))^n :=
    one_add_mul_le_pow (by norm_num) n
  have h2 : ((n : ℚ)) ≤ 1000 := by exact_mod_cast hn
  have h3 : ((1 : ℚ) + (-1/10000)) = 9999/10000 := by norm_num
  rw [h3] at h1
  linarith

theorem c2_pow_nonneg (n : ℕ) : (0 : ℚ) ≤ (9999/10000)^n := by positivity

theorem c2tod_one : c2tod 1 = 121/10 := by
  norm_num [c2tod, pymod]

theorem c2_shape (k : ℕ) (hk : k ≤ 999) :
    (c2_res k).map (fun r => r.1)
        = some (c2Twin (k+1) ((9999/10000 : ℚ)^(k+1)) (c2tod (k+1))) ∧
    (c2_res k).map (fun r => r.2.2) = some false := by
  induction k with
  | zero =>
    have hs : step trig0 noise0 act0 twin0
        = some (c2Twin 1 (9999/10000) (121/10),
            calc_reward (c2Twin 1 (9999/10000) (121/10)).state,
            check_termination (c2Twin 1 (9999/10000) (121/10))) := by
      simp [step, stepCore_twin0]
    constructor
    · simp [c2_res, hs, c2tod_one, pow_one]
    · simp [c2_res, hs]
      rw [check_c2_false 1 _ _ (by norm_num) (by norm_num) (by norm_num)]
  | succ k ih =>
    have hk' : k ≤ 999 := by omega
    obtain ⟨ih1, _⟩ := ih hk'
    rcases hres : c2_res k with _ | p
    · rw [hres] at ih1
      exact absurd ih1 (by simp)
    rw [hres] at ih1
    simp only [Option.map_some', Option.some.injEq] at ih1
    have hstep : step trig0 noise0 act0 p.1
        = some (c2Twin (k+2) ((9999/10000 : ℚ)^(k+2)) (c2tod (k+2)),
            calc_reward (c2Twin (k+2) ((9999/10000 : ℚ)^(k+2)) (c2tod (k+2))).state,
            check_termination (c2Twin (k+2) ((9999/10000 : ℚ)^(k+2)) (c2tod (k+2)))) := by
      rw [ih1]
      have := stepCore_c2 (k+1) ((9999/10000 : ℚ)^(k+1)) (c2tod (k+1))
      rw [← pow_succ] at this
      have htod : pymod (c2tod (k+1) + 1/10) 24 = c2tod (k+2) := rfl
      rw [htod] at this
      simp [step, this]
    have hres' : c2_res (k+1) = (c2_res k).bind fun r => step trig0 noise0 act0 r.1 := rfl
    rw [hres', hres]
    constructor
    · simp [hstep]
    · simp [hstep]
      rw [check_c2_false (k+2) _ _ (by omega) (c2_pow_nonneg _) (c2_pow_ge _ (by omega))]

/-- C2: the claim asserts termination on or before the 1000th `step` call;
on the all-zero run from `twin0` every one of the first 1000 calls returns
`done = false` (the horizon exit `time_step > 1000` is strict), and the
1001st call returns `done = true`. -/
theorem c2_counterexample : c2_cex_prop := by
  constructor
  · intro k hkk
    exact (c2_shape k hkk).2
  · obtain ⟨h9, _⟩ := c2_shape 999 (by norm_num)
    rcases hres : c2_res 999 with _ | p
    · rw [hres] at h9
      exact absurd h9 (by simp)
    rw [hres] at h9
    simp only [Option.map_some', Option.some.injEq] at h9
    have hres' : c2_res 1000 = (c2_res 999).bind fun r => step trig0 noise0 act0 r.1 := rfl
    rw [hres', hres]
    have hstep := stepCore_c2 1000 ((9999/10000 : ℚ)^1000) (c2tod 1000)
    simp only [Option.some_bind]
    rw [h9]
    simp [step, hstep, check_c2_true_at_1001]

theorem check_termination_horizon (t : Twin) (h : 1000 < t.time_step) :
    check_termination t = true := by
  simp [check_termination, h]

/-! State bounds (claim C1). -/

theorem update_wind_nonneg (s : GridState) : 0 ≤ (update_wind s).wind_generation := by
  unfold update_wind wind_capacity
  simp only
  split
  · norm_num
  split
  · rename_i h1 h2
    rw [not_lt] at h1
    have : (0 : ℚ) ≤ (s.wind_speed - 3) / 9 := by
      apply div_nonneg _ (by norm_num)
      linarith
    nlinarith
  split
  · norm_num
  · norm_num

theorem update_solar_nonneg (tr : Transc) (s : GridState)
    (hsin : ∀ x, |tr.sin_pi x| ≤ 1)
    (hc1 : s.cloud_cover ≤ 1) (ht : s.temperature ≤ 275) :
    0 ≤ (update_solar tr s).solar_generation := by
  unfold update_solar
  split
  · simp only
    have h1 : (0 : ℚ) ≤ max 0 (tr.cos_pi ((s.time_of_day - 12) / 12)) := le_max_left _ _
    have h2 : (0 : ℚ) ≤ 1 - (8/10) * s.cloud_cover := by linarith
    have h3 : (0 : ℚ) ≤ 1 + (2/10) * tr.sin_pi (2 * (s.day_of_year : ℚ) / 365) := by
      have := abs_le.mp (hsin (2 * (s.day_of_year : ℚ) / 365))
      linarith [this.1]
    have h4 : (0 : ℚ) ≤ 1 - (4/1000) * max 0 (s.temperature - 25) := by
      have hm : max 0 (s.temperature - 25) ≤ 250 := max_le (by norm_num) (by linarith)
      linarith
    unfold solar_capacity
    positivity
  · simp

theorem update_weather_cloud_le (tr : Transc) (n : Noise) (s : GridState) :
    (update_weather tr n s).cloud_cover ≤ 1 :=
  (clip_mem _ 0 1 (by norm_num)).2

theorem update_weather_temp_le (tr : Transc) (n : Noise) (s : GridState)
    (hcos : ∀ x, |tr.cos_pi x| ≤ 1) (htemp : n.temp ≤ 240) :
    (update_weather tr n s).temperature ≤ 275 := by
  have := abs_le.mp (hcos ((s.time_of_day - 14) / 12))
  show 27 + 8 * tr.cos_pi ((s.time_of_day - 14) / 12) + n.temp ≤ 275
  linarith [this.2]

theorem preEvents_solar_nonneg (tr : Transc) (n : Noise) (t : Twin)
    (hcos : ∀ x, |tr.cos_pi x| ≤ 1) (hsin : ∀ x, |tr.sin_pi x| ≤ 1)
    (htemp : n.temp ≤ 240) :
    0 ≤ (preEvents tr n t).state.solar_generation := by
  simp only [preEvents]
  have h1 : ∀ s : GridState, (update_load tr n.load s).solar_generation
      = s.solar_generation := fun _ => rfl
  have h2 : ∀ s : GridState, (update_wind s).solar_generation = s.solar_generation :=
    fun _ => rfl
  rw [h1, h2]
  exact update_solar_nonneg tr _ hsin (update_weather_cloud_le tr n _)
    (update_weather_temp_le tr n _ hcos htemp)

theorem preEvents_wind_nonneg (tr : Transc) (n : Noise) (t : Twin) :
    0 ≤ (preEvents tr n t).state.wind_generation := by
  simp only [preEvents]
  have h1 : ∀ s : GridState, (update_load tr n.load s).wind_generation
      = s.wind_generation := fun _ => rfl
  rw [h1]
  exact update_wind_nonneg _

theorem stability_aux (A B h T L : ℚ) (hA : A ≤ 1) (hB : B ≤ 1)
    (hh0 : 0 ≤ h) (hh1 : h ≤ 1) (hT : 0 ≤ T) :
    0 ≤ (3/10) * max 0 A + (3/10) * max 0 B + (2/10) * h + (2/10) * min (T / max L 1) 1 ∧
    (3/10) * max 0 A + (3/10) * max 0 B + (2/10) * h + (2/10) * min (T / max L 1) 1 ≤ 1 := by
  have m1 : (0 : ℚ) ≤ max 0 A := le_max_left _ _
  have m2 : max 0 A ≤ 1 := max_le (by norm_num) hA
  have m3 : (0 : ℚ) ≤ max 0 B := le_max_left _ _
  have m4 : max 0 B ≤ 1 := max_le (by norm_num) hB
  have hL : (0 : ℚ) < max L 1 := lt_of_lt_of_le one_pos (le_max_right L 1)
  have r1 : (0 : ℚ) ≤ T / max L 1 := div_nonneg hT hL.le
  have r2 : (0 : ℚ) ≤ min (T / max L 1) 1 := le_min r1 (by norm_num)
  have r3 : min (T / max L 1) 1 ≤ 1 := min_le_right _ _
  constructor <;> linarith

theorem postEvents_stability_eq (a : Action) (t : Twin) :
    (postEvents a t).state.stability_score =
      (3/10) * max 0 (1 - |(postEvents a t).state.grid_frequency - 50| / 1) +
      (3/10) * max 0 (1 - |(postEvents a t).state.grid_voltage - 1| / (1/10)) +
      (2/10) * (t.state.battery_health * (9999/10000)) +
      (2/10) * min ((t.state.solar_generation + t.state.wind_generation +
          |battery_power a t.state| + max 0 (postEvents a t).state.grid_import) /
          max t.state.load_demand 1) 1 := rfl

theorem postEvents_bounds (a : Action) (t : Twin)
    (hs : 0 ≤ t.state.solar_generation) (hw : 0 ≤ t.state.wind_generation)
    (hh0 : 0 ≤ t.state.battery_health) (hh1 : t.state.battery_health ≤ 1) :
    0 ≤ (postEvents a t).state.battery_soc ∧ (postEvents a t).state.battery_soc ≤ 1 ∧
    0 ≤ (postEvents a t).state.stability_score ∧ (postEvents a t).state.stability_score ≤ 1 ∧
    49 ≤ (postEvents a t).state.grid_frequency ∧ (postEvents a t).state.grid_frequency ≤ 51 ∧
    9/10 ≤ (postEvents a t).state.grid_voltage ∧
      (postEvents a t).state.grid_voltage ≤ 11/10 := by
  have hsoc : (postEvents a t).state.battery_soc
      = clip (t.state.battery_soc -
          energy_change (battery_power a t.state) / t.state.battery_capacity) 0 1 := rfl
  have hfreq : (postEvents a t).state.grid_frequency
      = clip (50 + -(grid_balance a t.state) / 1000) 49 51 := rfl
  have hvolt : (postEvents a t).state.grid_voltage
      = clip (1 + -|grid_balance a t.state| / 2000) (9/10) (11/10) := rfl
  have hsocm := clip_mem (t.state.battery_soc -
    energy_change (battery_power a t.state) / t.state.battery_capacity) 0 1 (by norm_num)
  have hfm := clip_mem (50 + -(grid_balance a t.state) / 1000) 49 51 (by norm_num)
  have hvm := clip_mem (1 + -|grid_balance a t.state| / 2000) (9/10) (11/10) (by norm_num)
  have hstab := postEvents_stability_eq a t
  have hT : 0 ≤ t.state.solar_generation + t.state.wind_generation +
      |battery_power a t.state| + max 0 (postEvents a t).state.grid_import := by
    have := abs_nonneg (battery_power a t.state)
    have := le_max_left (0 : ℚ) (postEvents a t).state.grid_import
    linarith
  have hhb0 : (0 : ℚ) ≤ t.state.battery_health * (9999/10000) := by nlinarith
  have hhb1 : t.state.battery_health * (9999/10000) ≤ 1 := by nlinarith
  have hA : (1 : ℚ) - |(postEvents a t).state.grid_frequency - 50| / 1 ≤ 1 := by
    have := abs_nonneg ((postEvents a t).state.grid_frequency - 50)
    linarith
  have hB : (1 : ℚ) - |(postEvents a t).state.grid_voltage - 1| / (1/10) ≤ 1 := by
    have h1 := abs_nonneg ((postEvents a t).state.grid_voltage - 1)
    have h2 : (0 : ℚ) ≤ |(postEvents a t).state.grid_voltage - 1| / (1/10) := by positivity
    linarith
  obtain ⟨hst0, hst1⟩ := stability_aux _ _ _ _ t.state.load_demand hA hB hhb0 hhb1 hT
  refine ⟨?_, ?_, ?_, ?_, ?_, ?_, ?_, ?_⟩
  · rw [hsoc]; exact hsocm.1
  · rw [hsoc]; exact hsocm.2
  · rw [hstab]; exact hst0
  · rw [hstab]; exact hst1
  · rw [hfreq]; exact hfm.1
  · rw [hfreq]; exact hfm.2
  · rw [hvolt]; exact hvm.1
  · rw [hvolt]; exact hvm.2

/-- C1 (amended): after any successful `step`, `battery_soc ∈ [0,1]`,
`grid_frequency ∈ [49,51]` and `grid_voltage ∈ [0.9,1.1]` hold by the
source's clipping alone; `stability_score ∈ [0,1]` additionally requires
that the incoming `battery_health` lies in `[0,1]` (true on every run, as
health starts at 1 and only shrinks) and that the step's temperature noise
draw is at most 240 (so the post-update temperature stays at most 275 C
and solar generation stays nonnegative).  The unbounded Gaussian
temperature draw is the only way any of the four bounds can fail. -/
theorem step_safe_bounds (tr : Transc) (n : Noise) (a : Action) (t : Twin)
    (htr : BoundedTransc tr) (hh0 : 0 ≤ t.state.battery_health)
    (hh1 : t.state.battery_health ≤ 1) (htemp : n.temp ≤ 240) :
    safe_bounds (step tr n a t) := by
  intro r hr
  rw [step_eq] at hr
  simp only [Option.mem_def, Option.map_eq_some'] at hr
  obtain ⟨t1, ht1, hrdef⟩ := hr
  obtain ⟨hhe, hsol, hwind, _⟩ := process_events_core _ _ ht1
  have hs1 : 0 ≤ t1.state.solar_generation := by
    rw [hsol]
    exact preEvents_solar_nonneg tr n t htr.1 htr.2 htemp
  have hw1 : 0 ≤ t1.state.wind_generation := by
    rw [hwind]
    exact preEvents_wind_nonneg tr n t
  have hhh : t1.state.battery_health = t.state.battery_health := by
    rw [hhe, preEvents_health]
  obtain ⟨b1, b2, b3, b4, b5, b6, b7, b8⟩ :=
    postEvents_bounds a t1 hs1 hw1 (by rw [hhh]; exact hh0) (by rw [hhh]; exact hh1)
  rw [← hrdef]
  exact ⟨b1, b2, b3, b4, b5, b6, b7, b8⟩

/-- Witness for `step_safe_bounds`: the zero-oracle, a concretely
constructed twin, zero noise and the zero action satisfy the hypotheses,
and the bounds hold for that step. -/
theorem step_safe_bounds_witness :
    BoundedTransc trig0 ∧ (0 : ℚ) ≤ twin0.state.battery_health ∧
    twin0.state.battery_health ≤ 1 ∧ noise0.temp ≤ 240 ∧
    safe_bounds (step trig0 noise0 act0 twin0) := by
  have hb : BoundedTransc trig0 := ⟨fun x => by norm_num [trig0], fun x => by norm_num [trig0]⟩
  have hh : twin0.state.battery_health = 1 := rfl
  have h0 : (0 : ℚ) ≤ twin0.state.battery_health := by rw [hh]; norm_num
  have h1 : twin0.state.battery_health ≤ 1 := by rw [hh]
  have ht : noise0.temp ≤ 240 := by norm_num [noise0]
  exact ⟨hb, h0, h1, ht, step_safe_bounds trig0 noise0 act0 twin0 hb h0 h1 ht⟩

/-! Battery health monotonicity (claim C5). -/

theorem step_health (tr : Transc) (n : Noise) (a : Action) (t : Twin) :
    ∀ r ∈ step tr n a t,
      r.1.state.battery_health = t.state.battery_health * (9999/10000) := by
  intro r hr
  rw [step_eq] at hr
  simp only [Option.mem_def, Option.map_eq_some'] at hr
  obtain ⟨t1, ht1, hrdef⟩ := hr
  rw [← hrdef]
  show (postEvents a t1).state.battery_health = _
  rw [postEvents_health, (process_events_core _ _ ht1).1, preEvents_health]

theorem inject_event_health (e : EventKind) (t : Twin) :
    (inject_event e t).state.battery_health = t.state.battery_health ∨
    (inject_event e t).state.battery_health = t.state.battery_health * (8/10) := by
  cases e
  · exact Or.inl rfl
  · exact Or.inl rfl
  · exact Or.inl rfl
  · exact Or.inr rfl

/-- C5: over any sequence of `step` and `inject_event` calls (no reset),
`battery_health` is non-increasing - each `step` multiplies it by 0.9999,
`inject_event('battery_degradation')` multiplies it by 0.8, the other
events leave it unchanged - and it stays nonnegative. -/
theorem battery_health_non_increasing (tr : Transc) (l : List GridOp) (t : Twin)
    (h0 : 0 ≤ t.state.battery_health) :
    health_mono t.state.battery_health (run_ops tr l t) := by
  induction l generalizing t with
  | nil =>
    intro t' ht'
    simp only [run_ops, Option.mem_def, Option.some.injEq] at ht'
    subst ht'
    exact ⟨le_refl _, h0⟩
  | cons op rest ih =>
    intro t' ht'
    simp only [run_ops, Option.mem_def, Option.bind_eq_some] at ht'
    obtain ⟨u, hu, hrest⟩ := ht'
    have hstep : u.state.battery_health ≤ t.state.battery_health ∧
        0 ≤ u.state.battery_health := by
      cases op with
      | doStep n a =>
        simp only [apply_op, Option.map_eq_some'] at hu
        obtain ⟨r, hr, hru⟩ := hu
        have hh := step_health tr n a t r hr
        rw [← hru, hh]
        constructor
        · nlinarith
        · nlinarith
      | doInject e =>
        simp only [apply_op, Option.some.injEq] at hu
        subst hu
        rcases inject_event_health e t with h | h <;> rw [h]
        · exact ⟨le_refl _, h0⟩
        · constructor
          · nlinarith
          · nlinarith
    obtain ⟨hle, hge⟩ := ih u hstep.2 t' hrest
    exact ⟨le_trans hle hstep.1, hge⟩

/-- Witness for `battery_health_non_increasing`: a concrete two-operation
run (one step, then a battery-degradation event) from `twin0`. -/
theorem battery_health_non_increasing_witness :
    (0 : ℚ) ≤ twin0.state.battery_health ∧
    health_mono twin0.state.battery_health
      (run_ops trig0 [GridOp.doStep noise0 act0, GridOp.doInject .battery_degradation]
        twin0) := by
  have h0 : (0 : ℚ) ≤ twin0.state.battery_health := by
    rw [show twin0.state.battery_health = 1 from rfl]
    norm_num
  exact ⟨h0, battery_health_non_increasing trig0 _ twin0 h0⟩

/-! The frequency exit is dead code (claim C10). -/

theorem postEvents_freq_window (a : Action) (t : Twin) :
    |(postEvents a t).state.grid_frequency - 50| ≤ 1 := by
  have hfreq : (postEvents a t).state.grid_frequency
      = clip (50 + -(grid_balance a t.state) / 1000) 49 51 := rfl
  have := clip_mem (50 + -(grid_balance a t.state) / 1000) 49 51 (by norm_num)
  rw [hfreq]
  rw [abs_le]
  constructor <;> linarith [this.1, this.2]

/-- C10: after every successful `step`, the grid frequency is within 1 Hz
of nominal (it is clipped to `[49, 51]` before termination is checked), so
the `|frequency - 50| > 2` exit of `_check_termination` can never fire and
the returned `done` flag equals the disjunction of the stability,
battery-health and step-horizon exits alone. -/
theorem step_frequency_exit_unreachable (tr : Transc) (n : Noise) (a : Action) (t : Twin) :
    freq_exit_dead (step tr n a t) := by
  intro r hr
  rw [step_eq] at hr
  simp only [Option.mem_def, Option.map_eq_some'] at hr
  obtain ⟨t1, ht1, hrdef⟩ := hr
  have hwin := postEvents_freq_window a t1
  rw [← hrdef]
  refine ⟨hwin, ?_⟩
  show check_termination (postEvents a t1) = _
  unfold check_termination
  have h3 : decide (|(postEvents a t1).state.grid_frequency - 50| > 2) = false := by
    simp only [decide_eq_false_iff_not, not_lt]
    linarith
  rw [h3]
  simp

/-! The under-filled-buffer guard of `train_step` (claim C8). -/

/-- C8: whenever the experience buffer holds fewer than `batch_size`
transitions, `train_step` returns the zeroed metrics dict and the agent
unchanged (networks, optimizers and buffer untouched), for every possible
training body. -/
theorem train_step_underfilled {Net Opt Exp : Type}
    (body : RLAgent Net Opt Exp → RLAgent Net Opt Exp × Metrics)
    (batch_size : ℕ) (ag : RLAgent Net Opt Exp)
    (h : ag.buffer.length < batch_size) :
    train_step body batch_size ag = (ag, ⟨0, 0, 0⟩) := by
  unfold train_step
  rw [if_pos h]

/-- Witness for `train_step_underfilled`: an empty buffer against the
default batch size 64, with a body that would visibly change the
metrics. -/
theorem train_step_underfilled_witness :
    agent0.buffer.length < 64 ∧
    train_step (fun ag => (ag, ⟨1, 1, 1⟩)) 64 agent0 = (agent0, ⟨0, 0, 0⟩) :=
  ⟨by norm_num [agent0], train_step_underfilled _ 64 agent0 (by norm_num [agent0])⟩

/-! Seed determinism (claim C9). -/

/-- C9 (amended): constructing a twin with a fixed seed erases the prior
state of the process-wide random source, so re-running construction plus a
fixed action sequence from any two prior global generator states produces
bit-identical state trajectories.  (Two instances stepped in an
interleaved schedule do diverge - see the counterexample.) -/
theorem seeded_run_reproducible {R : Type} (tr : Transc) (seedFn : ℤ → R)
    (drawInit : R → InitDraws × R) (drawNoise : R → Noise × R)
    (seed : ℤ) (acts : List Action) (g1 g2 : R) :
    (run_traj tr drawNoise acts (mk_twin_seeded tr seedFn drawInit seed g1).1
        (mk_twin_seeded tr seedFn drawInit seed g1).2).1 =
    (run_traj tr drawNoise acts (mk_twin_seeded tr seedFn drawInit seed g2).1
        (mk_twin_seeded tr seedFn drawInit seed g2).2).1 := rfl

/-- C9 counterexample: two twins constructed back to back with the same
seed 42 are bit-identical, but because they share the process-wide random
stream, stepping them in an interleaved schedule with the same action
consumes different draws and their `cloud_cover` trajectories diverge
(0.29 versus 0.39 after one step). -/
theorem interleaved_twins_diverge_cex :
    c9_twinA = c9_twinB ∧
    (step trig0 c9_noiseA act0 c9_twinA).map (fun r => r.1.state.cloud_cover)
        = some (29/100) ∧
    (step trig0 c9_noiseB act0 c9_twinB).map (fun r => r.1.state.cloud_cover)
        = some (39/100) ∧
    (29/100 : ℚ) ≠ 39/100 := by
  refine ⟨rfl, ?_, ?_, by norm_num⟩ <;>
    norm_num [step, stepCore, preEvents, postEvents, process_events, tickTimers,
      removeExpired, battery_power, curtailed_renewable, shifted_load, energy_change,
      grid_balance, update_weather, update_solar, update_wind, update_load,
      update_grid_dynamics, update_stability, calc_energy_cost, calc_reward,
      check_termination, init_twin, init_twin_state, clip, pymod, dt,
      solar_capacity, wind_capacity, battery_max_charge_rate, battery_efficiency,
      grid_import_cost, grid_export_price, battery_degradation_cost,
      trig0, act0, c9_twinA, c9_twinB, c9_noiseA, c9_noiseB, c9_g1, c9_g2,
      mk_twin_seeded, seedC, drawInitC, drawNoiseC,
      dictGet, dictPut, dictDel, listRemove, abs, max_def, min_def]

/-! Observation vector fallback (claim C6). -/

/-- C6: `get_state_vector` always returns 13 entries; if any forecast
argument is omitted the last three entries duplicate the current
normalized solar, wind and load (entries 0, 1, 2); only with all three
forecasts supplied do they carry the normalized forecasts. -/
theorem get_state_vector_contract (t : Twin) (fs fw fl : Option ℚ) :
    c6_vector_prop t fs fw fl := by
  unfold c6_vector_prop
  rcases fs with _ | a <;> rcases fw with _ | b <;> rcases fl with _ | c
  · exact ⟨rfl, fun _ => ⟨rfl, rfl, rfl⟩, fun x y z hx _ _ => Option.noConfusion hx⟩
  · exact ⟨rfl, fun _ => ⟨rfl, rfl, rfl⟩, fun x y z hx _ _ => Option.noConfusion hx⟩
  · exact ⟨rfl, fun _ => ⟨rfl, rfl, rfl⟩, fun x y z hx _ _ => Option.noConfusion hx⟩
  · exact ⟨rfl, fun _ => ⟨rfl, rfl, rfl⟩, fun x y z hx _ _ => Option.noConfusion hx⟩
  · exact ⟨rfl, fun _ => ⟨rfl, rfl, rfl⟩, fun x y z _ hy _ => Option.noConfusion hy⟩
  · exact ⟨rfl, fun _ => ⟨rfl, rfl, rfl⟩, fun x y z _ hy _ => Option.noConfusion hy⟩
  · exact ⟨rfl, fun _ => ⟨rfl, rfl, rfl⟩, fun x y z _ _ hz => Option.noConfusion hz⟩
  · refine ⟨rfl, fun h => ?_, fun x y z hx hy hz => ?_⟩
    · rcases h with h | h | h <;> exact Option.noConfusion h
    · injection hx with hx
      injection hy with hy
      injection hz with hz
      subst hx
      subst hy
      subst hz
      exact ⟨rfl, rfl, rfl⟩

/-! Baseline controller (claim C7). -/

/-- C7: the rule-based baseline controller is a pure function of the grid
state computing exactly the claimed closed-form action: charge
`min(surplus/200, 1)` when `surplus > 0` and SOC < 0.8; discharge
`min(|surplus|/200, 1)` when `surplus < 0` and SOC > 0.2; load shift 0.5
when stability < 0.85; grid import 0.8 when `surplus < -100`, 0.3 when
`-100 ≤ surplus < 0`; curtailment 0.3 when SOC > 0.95 and
`surplus > 200`; determinism (identical actions on identical states) is
immediate since it is a function of the state alone. -/
theorem get_action_eq_spec (s : GridState) : get_action s = spec_baseline_action s := by
  simp only [get_action, spec_baseline_action]
  split_ifs <;> rfl

/-! Battery dispatch characterization (claim C3). -/

/-- C3: on every successful `step`, relative to the post-event mid-step
state, `battery_charge_rate` is exactly the claimed dispatch (charge at
`min(excess, cmd * 200, headroom-to-0.95 * capacity * 10)` when the
clipped charge command exceeds 0.5 and SOC < 0.95; else discharge at
`min(deficit, cmd * 200, (SOC - 0.1) * capacity * 10)` when the clipped
discharge command exceeds 0.5 and SOC > 0.1; else 0), the SOC update
applies the asymmetric 0.95 efficiency and is clamped to `[0, 1]`; and in
the claimed scenario (SOC = 0.5, action `[1,0,0,0,0]`, curtailed
renewable exceeding shifted load) SOC strictly increases and
`battery_charge_rate` is negative. -/
theorem step_battery_dispatch (tr : Transc) (n : Noise) (a : Action) (t : Twin) :
    c3_claim_prop tr n a t := by
  intro t1 ht1 r hr
  rw [Option.mem_def] at ht1
  rw [step_eq, ht1] at hr
  simp only [Option.map_some', Option.mem_def, Option.some.injEq] at hr
  rw [← hr]
  have hbp : battery_power a t1.state =
      (if clip a.battery_charge 0 1 > 1/2 ∧ t1.state.battery_soc < 95/100 then
        -(min (min (max 0 ((t1.state.solar_generation + t1.state.wind_generation) *
                (1 - clip a.curtailment 0 1 / 2) -
              t1.state.load_demand * (1 - clip a.load_shift 0 1 / 5)))
            (clip a.battery_charge 0 1 * 200))
          ((95/100 - t1.state.battery_soc) * t1.state.battery_capacity * 10))
      else if clip a.battery_discharge 0 1 > 1/2 ∧ t1.state.battery_soc > 1/10 then
        min (min (max 0 (t1.state.load_demand * (1 - clip a.load_shift 0 1 / 5) -
              (t1.state.solar_generation + t1.state.wind_generation) *
                (1 - clip a.curtailment 0 1 / 2)))
            (clip a.battery_discharge 0 1 * 200))
          ((t1.state.battery_soc - 1/10) * t1.state.battery_capacity * 10)
      else 0) := by
    unfold battery_power curtailed_renewable shifted_load battery_max_charge_rate dt
    rw [show (t1.state.solar_generation + t1.state.wind_generation) *
          (1 - clip a.curtailment 0 1 * (1/2)) =
        (t1.state.solar_generation + t1.state.wind_generation) *
          (1 - clip a.curtailment 0 1 / 2) from by ring,
      show t1.state.load_demand * (1 - clip a.load_shift 0 1 * (2/10)) =
        t1.state.load_demand * (1 - clip a.load_shift 0 1 / 5) from by ring,
      show (95/100 - t1.state.battery_soc) * t1.state.battery_capacity / (1/10) =
        (95/100 - t1.state.battery_soc) * t1.state.battery_capacity * 10 from by ring,
      show (t1.state.battery_soc - 1/10) * t1.state.battery_capacity / (1/10) =
        (t1.state.battery_soc - 1/10) * t1.state.battery_capacity * 10 from by ring]
  refine ⟨?_, ?_, ?_⟩
  · show battery_power a t1.state = _
    exact hbp
  · show clip (t1.state.battery_soc -
        energy_change (battery_power a t1.state) / t1.state.battery_capacity) 0 1 = _
    rw [hbp]
    rfl
  · intro hsoc hcap ha hlt
    subst ha
    dsimp only at hlt hbp ⊢
    have hcmd : clip (1 : ℚ) 0 1 = 1 := clip_eq_of_mem (by norm_num) (by norm_num)
    have hcmd0 : clip (0 : ℚ) 0 1 = 0 := clip_eq_of_mem (by norm_num) (by norm_num)
    rw [hcmd, hcmd0] at hbp
    rw [hcmd0] at hlt
    have he_pos : 0 <
        (t1.state.solar_generation + t1.state.wind_generation) * (1 - 0 / 2) -
          t1.state.load_demand * (1 - 0 / 5) := by
      linarith
    have hcond : (1 : ℚ) > 1/2 ∧ t1.state.battery_soc < 95/100 := by
      rw [hsoc]
      norm_num
    have hbpval : battery_power ⟨1, 0, 0, 0, 0⟩ t1.state
        = -(min (min (max 0
              ((t1.state.solar_generation + t1.state.wind_generation) * (1 - 0 / 2) -
                t1.state.load_demand * (1 - 0 / 5))) ((1:ℚ) * 200))
            ((95/100 - t1.state.battery_soc) * t1.state.battery_capacity * 10)) := by
      rw [hbp, if_pos hcond]
    set q := min (min (max 0
        ((t1.state.solar_generation + t1.state.wind_generation) * (1 - 0 / 2) -
          t1.state.load_demand * (1 - 0 / 5))) ((1:ℚ) * 200))
        ((95/100 - t1.state.battery_soc) * t1.state.battery_capacity * 10) with hqdef
    have hq_pos : 0 < q := by
      rw [hqdef]
      refine lt_min (lt_min ?_ ?_) ?_
      · exact lt_max_of_lt_right he_pos
      · norm_num
      · rw [hsoc, hcap]; norm_num
    have hq_le : q ≤ 200 := by
      rw [hqdef]
      refine le_trans (min_le_left _ _) (le_trans (min_le_right _ _) ?_)
      norm_num
    constructor
    · show t1.state.battery_soc <
        clip (t1.state.battery_soc -
          energy_change (battery_power ⟨1, 0, 0, 0, 0⟩ t1.state) /
            t1.state.battery_capacity) 0 1
      rw [hbpval, hsoc, hcap]
      have hec : energy_change (-q) = -q * dt * battery_efficiency := by
        unfold energy_change
        rw [if_pos (by linarith)]
      rw [hec]
      unfold dt battery_efficiency
      have hval : (1/2 : ℚ) - -q * (1/10) * (95/100) / 1000 = 1/2 + q * (19/200000) := by
        ring
      rw [hval, clip_eq_of_mem (by linarith) (by linarith)]
      linarith
    · show battery_power ⟨1, 0, 0, 0, 0⟩ t1.state < 0
      rw [hbpval]
      linarith

/-! Event lifecycle (claim C4). -/

theorem expire_reset_cloud (s : GridState) :
    (expire_reset .cloud_cover s).cloud_cover = 2/10 := rfl

theorem expire_reset_wspeed (s : GridState) :
    (expire_reset .wind_drop s).wind_speed = 10 := rfl

theorem tick_single (e : EventKind) (m : ℤ) :
    tickTimers [e] [(e, m)] = ([(e, m - 1)], if m - 1 ≤ 0 then [e] else []) := by
  by_cases h : m - 1 ≤ 0 <;>
    simp [tickTimers, dictGet, dictPut, List.find?, h]

theorem process_events_single_tick (u : Twin) (e : EventKind) (m : ℤ)
    (ha : u.active_events = [e]) (ht : u.event_timers = [(e, m)]) (hm : 2 ≤ m) :
    process_events u = some { u with event_timers := [(e, m - 1)] } := by
  unfold process_events
  rw [ha, ht, tick_single, if_neg (by omega)]
  rfl

theorem process_events_single_expire (u : Twin) (e : EventKind) (m : ℤ)
    (ha : u.active_events = [e]) (ht : u.event_timers = [(e, m)]) (hm : m ≤ 1) :
    process_events u = some { u with
      state := expire_reset e u.state,
      active_events := [],
      event_timers := [] } := by
  unfold process_events
  rw [ha, ht, tick_single, if_pos (by omega)]
  simp [removeExpired, listRemove, dictDel, List.find?]

theorem step_event_tick (tr : Transc) (n : Noise) (a : Action) (u : Twin)
    (e : EventKind) (m : ℤ)
    (ha : u.active_events = [e]) (ht : u.event_timers = [(e, m)]) (hm : 2 ≤ m) :
    ∀ r ∈ step tr n a u, r.1.active_events = [e] ∧ r.1.event_timers = [(e, m - 1)] := by
  intro r hr
  rw [step_eq] at hr
  simp only [Option.mem_def, Option.map_eq_some'] at hr
  obtain ⟨t1, ht1, hrdef⟩ := hr
  unfold midTwin at ht1
  have hpa : (preEvents tr n u).active_events = [e] := by rw [preEvents_active, ha]
  have hpt : (preEvents tr n u).event_timers = [(e, m)] := by rw [preEvents_timers, ht]
  rw [process_events_single_tick _ _ _ hpa hpt hm] at ht1
  injection ht1 with ht1
  rw [← hrdef, ← ht1]
  constructor
  · rw [postEvents_active]
    exact hpa
  · rw [postEvents_timers]

theorem step_event_expire (tr : Transc) (n : Noise) (a : Action) (u : Twin)
    (e : EventKind) (m : ℤ)
    (ha : u.active_events = [e]) (ht : u.event_timers = [(e, m)]) (hm : m ≤ 1) :
    ∀ r ∈ step tr n a u,
      r.1.active_events = [] ∧ r.1.event_timers = [] ∧
      (e = .cloud_cover → r.1.state.cloud_cover = 2/10) ∧
      (e = .wind_drop → r.1.state.wind_speed = 10) := by
  intro r hr
  rw [step_eq] at hr
  simp only [Option.mem_def, Option.map_eq_some'] at hr
  obtain ⟨t1, ht1, hrdef⟩ := hr
  unfold midTwin at ht1
  have hpa : (preEvents tr n u).active_events = [e] := by rw [preEvents_active, ha]
  have hpt : (preEvents tr n u).event_timers = [(e, m)] := by rw [preEvents_timers, ht]
  rw [process_events_single_expire _ _ _ hpa hpt hm] at ht1
  injection ht1 with ht1
  rw [← hrdef, ← ht1]
  refine ⟨rfl, rfl, ?_, ?_⟩
  · intro he
    subst he
    rw [postEvents_cloud]
    exact expire_reset_cloud _
  · intro he
    subst he
    rw [postEvents_wind_speed]
    exact expire_reset_wspeed _

theorem runSteps_armed (tr : Transc) (e : EventKind) (l : List (Noise × Action)) :
    ∀ (u : Twin) (m : ℤ), u.active_events = [e] → u.event_timers = [(e, m)] →
    (l.length : ℤ) < m →
    ∀ t' ∈ runSteps tr l u,
      t'.active_events = [e] ∧ t'.event_timers = [(e, m - l.length)] := by
  induction l with
  | nil =>
    intro u m ha ht _ t' ht'
    simp only [runSteps, Option.mem_def, Option.some.injEq] at ht'
    subst ht'
    simpa [ha] using ht
  | cons p rest ih =>
    rcases p with ⟨pn, pa⟩
    intro u m ha ht hlen t' ht'
    have hc : (((pn, pa) :: rest).length : ℤ) = (rest.length : ℤ) + 1 := by
      simp
    rw [hc] at hlen
    have hm2 : 2 ≤ m := by
      have : (0 : ℤ) ≤ (rest.length : ℤ) := Int.ofNat_nonneg _
      omega
    simp only [runSteps, Option.mem_def, Option.bind_eq_some] at ht'
    obtain ⟨r, hr, hrest⟩ := ht'
    obtain ⟨ha', ht2⟩ := step_event_tick tr pn pa u e m ha ht hm2 r hr
    obtain ⟨h1, h2⟩ := ih r.1 (m - 1) ha' ht2 (by omega) t' hrest
    refine ⟨h1, ?_⟩
    rw [h2, hc]
    congr 1
    ring

theorem runSteps_expire (tr : Transc) (e : EventKind) (l : List (Noise × Action)) :
    ∀ (u : Twin) (m : ℤ), u.active_events = [e] → u.event_timers = [(e, m)] →
    (l.length : ℤ) = m → 1 ≤ m →
    ∀ t' ∈ runSteps tr l u,
      t'.active_events = [] ∧ t'.event_timers = [] ∧
      (e = .cloud_cover → t'.state.cloud_cover = 2/10) ∧
      (e = .wind_drop → t'.state.wind_speed = 10) := by
  induction l with
  | nil =>
    intro u m _ _ hlen hm t' _
    exfalso
    simp only [List.length_nil, Nat.cast_zero] at hlen
    omega
  | cons p rest ih =>
    rcases p with ⟨pn, pa⟩
    intro u m ha ht hlen hm t' ht'
    have hc : (((pn, pa) :: rest).length : ℤ) = (rest.length : ℤ) + 1 := by
      simp
    rw [hc] at hlen
    simp only [runSteps, Option.mem_def, Option.bind_eq_some] at ht'
    obtain ⟨r, hr, hrest⟩ := ht'
    by_cases hm1 : m ≤ 1
    · have hrest_len : rest.length = 0 := by omega
      have hrest_nil : rest = [] := List.length_eq_zero.mp hrest_len
      subst hrest_nil
      simp only [runSteps, Option.some.injEq] at hrest
      subst hrest
      exact step_event_expire tr pn pa u e m ha ht hm1 r hr
    · obtain ⟨ha', ht2⟩ := step_event_tick tr pn pa u e m ha ht (by omega) r hr
      exact ih r.1 (m - 1) ha' ht2 (by omega) (by omega) t' hrest

/-- C4: `inject_event('cloud_cover')` sets `cloud_cover = 0.9` immediately
and a 10-step timer whose expiry (during the 10th following step) resets
`cloud_cover` to the 0.2 baseline; `inject_event('wind_drop')` sets
`wind_speed = 1.0` and reverts it to the 10.0 baseline after 15 steps;
`inject_event('peak_demand')` multiplies `load_demand` by 1.5 and
`inject_event('battery_degradation')` multiplies `battery_health` by 0.8,
and when their timers expire `_process_events` clears the bookkeeping
without touching the state (no revert). -/
theorem inject_event_contract (tr : Transc) (t : Twin)
    (ha : t.active_events = []) (ht : t.event_timers = []) :
    c4_cloud_prop tr t ∧ c4_wind_prop tr t ∧ c4_peak_prop t ∧ c4_deg_prop t := by
  have hdp : ∀ (e : EventKind) (v : ℤ), dictPut t.event_timers e v = [(e, v)] := by
    intro e v
    rw [ht]
    rfl
  have hia : ∀ e : EventKind, t.active_events ++ [e] = [e] := by
    intro e
    rw [ha]
    rfl
  refine ⟨⟨rfl, hdp _ 10, ?_⟩, ⟨rfl, hdp _ 15, ?_⟩,
    ⟨rfl, hdp _ 20, ?_⟩, ⟨rfl, hdp _ 5, ?_⟩⟩
  · intro l t' hrun
    have hact : (inject_event .cloud_cover t).active_events = [.cloud_cover] := hia _
    have htim : (inject_event .cloud_cover t).event_timers = [(.cloud_cover, 10)] := hdp _ 10
    constructor
    · intro hlen
      exact runSteps_armed tr _ l _ 10 hact htim (by exact_mod_cast hlen) t' hrun
    · intro hlen
      obtain ⟨h1, h2, h3, _⟩ :=
        runSteps_expire tr _ l _ 10 hact htim (by rw [hlen]; rfl) (by norm_num) t' hrun
      exact ⟨h3 rfl, h1, h2⟩
  · intro l t' hrun
    have hact : (inject_event .wind_drop t).active_events = [.wind_drop] := hia _
    have htim : (inject_event .wind_drop t).event_timers = [(.wind_drop, 15)] := hdp _ 15
    constructor
    · intro hlen
      exact runSteps_armed tr _ l _ 15 hact htim (by exact_mod_cast hlen) t' hrun
    · intro hlen
      obtain ⟨h1, h2, _, h4⟩ :=
        runSteps_expire tr _ l _ 15 hact htim (by rw [hlen]; rfl) (by norm_num) t' hrun
      exact ⟨h4 rfl, h1, h2⟩
  · intro u hua hut
    exact process_events_single_expire u .peak_demand 1 hua hut (by norm_num)
  · intro u hua hut
    exact process_events_single_expire u .battery_degradation 1 hua hut (by norm_num)

/-- Witness for `inject_event_contract`: the concretely constructed twin
`twin0` has no active events. -/
theorem inject_event_contract_witness :
    twin0.active_events = [] ∧ twin0.event_timers = [] ∧
    (c4_cloud_prop trig0 twin0 ∧ c4_wind_prop trig0 twin0 ∧
      c4_peak_prop twin0 ∧ c4_deg_prop twin0) :=
  ⟨rfl, rfl, inject_event_contract trig0 twin0 rfl rfl⟩

/-- C1 counterexample: from a freshly constructed twin, a single step whose
temperature noise draw is 100000 (mathematically possible for the
unbounded Gaussian) makes solar generation negative and drives
`stability_score` to -3097501/50000, below 0 - so the claimed invariant
`stability_score ∈ [0,1]` fails for this action/noise sequence. -/
theorem step_stability_below_zero_cex :
    (step trig1 noiseBig actC1 (init_twin trig1 d1)).map
        (fun r => r.1.state.stability_score) = some (-3097501/50000) ∧
    (-3097501/50000 : ℚ) < 0 := by
  constructor
  · norm_num [step, stepCore, preEvents, postEvents, process_events, tickTimers,
      removeExpired, battery_power, curtailed_renewable, shifted_load, energy_change,
      grid_balance, update_weather, update_solar, update_wind, update_load,
      update_grid_dynamics, update_stability, calc_energy_cost, calc_reward,
      check_termination, init_twin, init_twin_state, clip, pymod, dt,
      solar_capacity, wind_capacity, battery_max_charge_rate, battery_efficiency,
      grid_import_cost, grid_export_price, battery_degradation_cost,
      trig1, noiseBig, actC1, d1, dictGet, dictPut, dictDel, listRemove,
      abs, max_def, min_def]
  · norm_num

/-- C2 (amended): every `step` call advances `time_step` by exactly one,
and any call entered with `time_step` at 1000 or more - i.e. the 1001st
call of an episode and later - returns `done = true`; so an episode
terminates at or before the 1001st call, not the 1000th. -/
theorem step_increments_and_horizon (tr : Transc) (n : Noise) (a : Action) (t : Twin) :
    horizon_done t (step tr n a t) := by
  intro r hr
  rw [step_eq] at hr
  simp only [Option.mem_def, Option.map_eq_some'] at hr
  obtain ⟨t1, ht1, hrdef⟩ := hr
  have htime : t1.time_step = t.time_step + 1 := by
    rw [(process_events_core _ _ ht1).2.2.2, preEvents_time_step]
  constructor
  · rw [← hrdef]
    simpa [postEvents_time_step] using htime
  · intro hge
    rw [← hrdef]
    simp only
    apply check_termination_horizon
    rw [postEvents_time_step, htime]
    omega

end GridSim
